import Mathlib

/-!
Verification development for an S-expression based netlist reader.

The development shallowly embeds the pipeline of the library:
byte spans, tokens and the token-level recursive-descent parser
(`src/sexpr/lexer.rs`, `src/sexpr/parser.rs`), the generic tree and its
query layer (`src/sexpr.rs`), the raw schema extraction
(`src/raw.rs`, `src/raw/parser.rs`), the pin-type vocabulary
(`src/parse.rs`) and the error taxonomy (`src/error.rs`).
Spans are pairs of byte offsets; Rust `&str` fields become `String`.
-/

namespace KicadNetList

/-- Decidable equality of results, so that concrete runs of the embedded
operations can be checked by `decide`. -/
instance {ε α : Type} [DecidableEq ε] [DecidableEq α] : DecidableEq (Except ε α) := fun a b =>
  match a, b with
  | .ok a, .ok b => if h : a = b then .isTrue (by rw [h]) else .isFalse (by intro hh; cases hh; exact h rfl)
  | .error a, .error b => if h : a = b then .isTrue (by rw [h]) else .isFalse (by intro hh; cases hh; exact h rfl)
  | .ok _, .error _ => .isFalse (by intro hh; cases hh)
  | .error _, .ok _ => .isFalse (by intro hh; cases hh)

/-- Rust `str::ends_with`, on the character sequences of the strings. -/
def strEndsWith (s suffix : String) : Bool :=
  suffix.data.isSuffixOf s.data

/-- A byte span into the source buffer (`logos::Span`, a half-open range). -/
abbrev Span := Nat × Nat

/-- The error taxonomy of `src/error.rs`.  `unexpectedRootLabel` is the
variant produced by the root-label gate of `src/raw/parser.rs`. -/
inductive ParseError where
  | unexpectedEof (at_ : Span)
  | unexpectedToken (expected : String) (found : String) (at_ : Span)
  | unknownToken (found : String) (at_ : Span)
  | missingChild (label : String)
  | missingValue
  | unknownPinType (s : String)
  | missingPart (s : String)
  | missingNet (refDes : String) (pin : String)
  | unusedPart (s : String)
  | unknownVersion (s : String)
  | unexpectedRootLabel (label : String)
deriving DecidableEq, Repr

/-- The generic labeled tree (`SExpr` in `src/sexpr.rs`): a labeled node
with an ordered list of children, or a string atom. -/
inductive SExpr where
  | node (label : String) (children : List SExpr)
  | str (s : String)

namespace SExpr

/-- Whether a tree is a labeled node carrying the given label
(the test performed by `LabeledChildIterator::next`). -/
def isLabeled (e : SExpr) (label : String) : Bool :=
  match e with
  | .node l _ => l = label
  | .str _ => false

/-- `SExpr::children(label)` collected into a list: all direct children
that are labeled nodes carrying `label`, in document order; a string atom
has no children. -/
def childrenOf (e : SExpr) (label : String) : List SExpr :=
  match e with
  | .str _ => []
  | .node _ cs => cs.filter (fun c => c.isLabeled label)

/-- `SExpr::child(label)`: the first direct child carrying `label`, or a
`MissingChild` error. -/
def child (e : SExpr) (label : String) : Except ParseError SExpr :=
  match (e.childrenOf label).head? with
  | some c => .ok c
  | none => .error (.missingChild label)

/-- `SExpr::value(label)`: look up the first child carrying `label`; if that
child's own first child is a string atom, return its string, otherwise a
`MissingValue` error. -/
def value (e : SExpr) (label : String) : Except ParseError String :=
  match e.child label with
  | .error err => .error err
  | .ok c =>
    match c with
    | .node _ (.str s :: _) => .ok s
    | _ => .error .missingValue

/-- The root label of a tree, if it is a labeled node
(`SExpr::label`, used by the netlist extraction). -/
def labelOf (e : SExpr) : Option String :=
  match e with
  | .node l _ => some l
  | .str _ => none

end SExpr

/-- The pin-type tags (`PinType`). -/
inductive PinType where
  | input
  | output
  | bidirectional
  | triState
  | passive
  | free
  | powerInput
  | powerOutput
  | openCollector
  | openEmitter
  | unconnected
deriving DecidableEq, Repr

/-- `TryFrom<&str> for PinType` (`src/parse.rs`): the `no_connect` suffix
rule is checked first, then the fixed vocabulary, and any other string is
an unknown-pin-type error carrying the string. -/
def pinTypeFromStr (s : String) : Except ParseError PinType :=
  if strEndsWith s "no_connect" then .ok .unconnected
  else if s = "input" then .ok .input
  else if s = "output" then .ok .output
  else if s = "bidirectional" then .ok .bidirectional
  else if s = "tri_state" then .ok .triState
  else if s = "passive" then .ok .passive
  else if s = "free" then .ok .free
  else if s = "power_in" then .ok .powerInput
  else if s = "power_out" then .ok .powerOutput
  else if s = "open_collector" then .ok .openCollector
  else if s = "open_emitter" then .ok .openEmitter
  else .error (.unknownPinType s)

/-- A raw component (`src/raw.rs`). -/
structure Component where
  ref_des : String
  value : String
  part : String
  lib : String
  properties : List (String × String)
  footprint : Option String
deriving DecidableEq, Repr

/-- A raw pin (`src/raw.rs`). -/
structure Pin where
  num : String
  name : String
  typ : String
deriving DecidableEq, Repr

/-- A raw library part (`src/raw.rs`). -/
structure Part where
  part : String
  lib : String
  description : String
  pins : List Pin
deriving DecidableEq, Repr

/-- A raw net node (`src/raw.rs`). -/
structure Node where
  ref_des : String
  num : String
  function : Option String
  typ : String
deriving DecidableEq, Repr

/-- A raw net (`src/raw.rs`). -/
structure Net where
  code : String
  name : String
  nodes : List Node
deriving DecidableEq, Repr

/-- The raw netlist (`src/raw.rs`). -/
structure NetList where
  components : List Component
  parts : List Part
  nets : List Net
deriving DecidableEq, Repr

/-- The property mapping applied to each `property` child of a component
node (`src/raw/parser.rs`, the closure inside `TryFrom<&SExpr> for
Component`): its `name` and `value` are both required. -/
def propertyFromSExpr (prop : SExpr) : Except ParseError (String × String) := do
  let name ← prop.value "name"
  let value ← prop.value "value"
  pure (name, value)

/-- `TryFrom<&SExpr> for Component` (`src/raw/parser.rs`): `ref` and
`value` are required, a failed `footprint` lookup becomes `none` via
`.ok()`, properties are collected propagating the first error, and the
`libsource` child must provide `lib` and `part`. -/
def componentFromSExpr (e : SExpr) : Except ParseError Component := do
  let ref_des ← e.value "ref"
  let val ← e.value "value"
  let footprint := (e.value "footprint").toOption
  let properties ← (e.childrenOf "property").mapM propertyFromSExpr
  let libsource ← e.child "libsource"
  let lib ← libsource.value "lib"
  let part ← libsource.value "part"
  pure { ref_des, value := val, part, lib, properties, footprint }

/-- `TryFrom<&SExpr> for Pin` (`src/raw/parser.rs`). -/
def pinFromSExpr (e : SExpr) : Except ParseError Pin := do
  let num ← e.value "num"
  let name ← e.value "name"
  let typ ← e.value "type"
  pure { num, name, typ }

/-- `TryFrom<&SExpr> for Part` (`src/raw/parser.rs`): `lib` and `part` are
required, `description` is taken with `unwrap_or_default` (a failed lookup
becomes the empty string), and a missing `pins` child yields the empty
pin list. -/
def partFromSExpr (e : SExpr) : Except ParseError Part :=
  match e.value "lib" with
  | .error err => .error err
  | .ok lib =>
    match e.value "part" with
    | .error err => .error err
    | .ok part =>
      match (match e.child "pins" with
             | .ok pins => (pins.childrenOf "pin").mapM pinFromSExpr
             | .error _ => .ok []) with
      | .error err => .error err
      | .ok pins =>
        .ok { part, lib, description := ((e.value "description").toOption).getD "", pins }

/-- `TryFrom<&SExpr> for Node` (`src/raw/parser.rs`): `ref`, `pin` and
`pintype` are required and a failed `pinfunction` lookup becomes `none`. -/
def nodeFromSExpr (e : SExpr) : Except ParseError Node := do
  let ref_des ← e.value "ref"
  let num ← e.value "pin"
  let function := (e.value "pinfunction").toOption
  let typ ← e.value "pintype"
  pure { ref_des, num, function, typ }

/-- `TryFrom<&SExpr> for Net` (`src/raw/parser.rs`). -/
def netFromSExpr (e : SExpr) : Except ParseError Net := do
  let code ← e.value "code"
  let name ← e.value "name"
  let nodes ← (e.childrenOf "node").mapM nodeFromSExpr
  pure { code, name, nodes }

/-- `TryFrom<&SExpr> for NetList` (`src/raw/parser.rs`): the root label
must be `export` and the `version` value must be `"E"`, otherwise a
dedicated error names the offending label or version string; then the
`components`, `libparts` and `nets` sections are extracted.  The Rust code
unwraps `label()`; the `none` result models the panic on a string atom,
which the parser never produces at the root. -/
def netListFromSExpr (e : SExpr) : Option (Except ParseError NetList) :=
  match e.labelOf with
  | none => none
  | some label => some (
    if label ≠ "export" then .error (.unexpectedRootLabel label)
    else match e.value "version" with
    | .error err => .error err
    | .ok version =>
      if version ≠ "E" then .error (.unknownVersion version)
      else do
        let components ← (← e.child "components").childrenOf "comp" |>.mapM componentFromSExpr
        let parts ← (← e.child "libparts").childrenOf "libpart" |>.mapM partFromSExpr
        let nets ← (← e.child "nets").childrenOf "net" |>.mapM netFromSExpr
        pure { components, parts, nets })

/-- The token kinds exposed to the parser (`TokenKind` in
`src/sexpr/lexer.rs`). -/
inductive TokenKind where
  | lparen
  | rparen
  | string
  | error
deriving DecidableEq, Repr

/-- The Rust `Debug` rendering of a token kind, as interpolated by
`format!` when an error is built. -/
def TokenKind.fmt : TokenKind → String
  | .lparen => "LParen"
  | .rparen => "RParen"
  | .string => "String"
  | .error => "Error"

/-- A token: kind plus byte span (`Token` in `src/sexpr/lexer.rs`). -/
structure Token where
  kind : TokenKind
  span : Span
deriving DecidableEq, Repr

/-- The raw lexer token kinds (`LogosTokenKind` in `src/sexpr/lexer.rs`). -/
inductive LogosTokenKind where
  | lparen
  | rparen
  | quotedString
  | string
  | ws
deriving DecidableEq, Repr

/-- One step of `impl Iterator for TokenIter` (`src/sexpr/lexer.rs`): a
lexed item is either a kind or a lex error, with its span; a quoted string
becomes a string token whose span drops the two delimiting quotes, the
other kinds keep their span, and a lex error becomes an error token.
Whitespace is skipped by the lexer and never reaches this match, so the
`ws` case yields no token. -/
def tokenIterStep : Except Unit LogosTokenKind × Span → Option Token
  | (.ok .quotedString, (s, e)) => some { kind := .string, span := (s + 1, e - 1) }
  | (.ok .lparen, sp) => some { kind := .lparen, span := sp }
  | (.ok .rparen, sp) => some { kind := .rparen, span := sp }
  | (.ok .string, sp) => some { kind := .string, span := sp }
  | (.ok .ws, _) => none
  | (.error _, sp) => some { kind := .error, span := sp }

/-- The escape characters admitted after a backslash by the
`QuotedString` regex of `src/sexpr/lexer.rs`: the class `["\bnfrt]`. -/
def quotedEscapes : List Char := ['\"', '\\', 'b', 'n', 'f', 'r', 't']

/-- Matcher for the body of the `QuotedString` regex
`([^"\x5c]|\x5c["\x5cbnfrt]|u[a-fA-F0-9]{4})*"` after the opening quote:
consume content alternatives until the closing quote, returning the
remaining input, or `none` when no alternative applies.  The third
alternative `u[a-fA-F0-9]{4}` carries no backslash, so each of its
characters is already accepted by the first alternative `[^"\x5c]`;
committing to the first alternative therefore recognizes exactly the
language of the regex. -/
def qsBody : List Char → Option (List Char)
  | [] => none
  | '\"' :: rest => some rest
  | '\\' :: c :: rest => if c ∈ quotedEscapes then qsBody rest else none
  | '\\' :: [] => none
  | _ :: rest => qsBody rest

/-- Whether a full character sequence is one `QuotedString` token of the
lexer with nothing left over: an opening quote, escaped content, and a
terminating quote. -/
def quotedStringToken (cs : List Char) : Bool :=
  match cs with
  | '\"' :: rest => qsBody rest = some []
  | _ => false

/-- The tree built by the token-level parser (`ParsedSExpr` in
`src/sexpr/parser.rs`): labels and atoms are byte spans. -/
inductive ParsedSExpr where
  | sexpr (labelSpan : Span) (children : List ParsedSExpr)
  | string (span : Span)

mutual

/-- `Parser::parse_sexpr` (`src/sexpr/parser.rs`) over the token stream,
with `expect`/`get` inlined: expect `(`, expect a string token used as the
label, then parse the children until `)`.  `len` is the input length,
used for the span of end-of-input errors.  The first argument is
recursion fuel: every recursive call costs one unit, and `none` means the
fuel ran out, which never happens when the fuel exceeds the token count. -/
def parseSExprF : Nat → Nat → List Token → Option (Except ParseError (ParsedSExpr × List Token))
  | 0, _, _ => none
  | _ + 1, len, [] => some (.error (.unexpectedEof (len, len)))
  | fuel + 1, len, t :: ts =>
    match t.kind with
    | .lparen =>
      match ts with
      | [] => some (.error (.unexpectedEof (len, len)))
      | lt :: ts' =>
        match lt.kind with
        | .string =>
          match parseChildrenF fuel len lt.span ts' with
          | none => none
          | some (.error e) => some (.error e)
          | some (.ok (cs, rest)) => some (.ok (.sexpr lt.span cs, rest))
        | k => some (.error (.unexpectedToken "String" k.fmt lt.span))
    | k => some (.error (.unexpectedToken "LParen" k.fmt t.span))

/-- The child loop of `Parser::parse_sexpr`: on `)` consume it and close
the node; on `(` parse a nested S-expression; on a string token take it as
an atom child; on a lex-error token fail with `UnknownToken` carrying, as
the source does, the span of the current node's label (`at: label.span`);
at end of input fail with `UnexpectedEof`. -/
def parseChildrenF : Nat → Nat → Span → List Token → Option (Except ParseError (List ParsedSExpr × List Token))
  | 0, _, _, _ => none
  | _ + 1, len, _, [] => some (.error (.unexpectedEof (len, len)))
  | fuel + 1, len, labelSpan, t :: ts =>
    match t.kind with
    | .rparen => some (.ok ([], ts))
    | .lparen =>
      match parseSExprF fuel len (t :: ts) with
      | none => none
      | some (.error e) => some (.error e)
      | some (.ok (e, rest)) =>
        match parseChildrenF fuel len labelSpan rest with
        | none => none
        | some (.error err) => some (.error err)
        | some (.ok (es, rest')) => some (.ok (e :: es, rest'))
    | .string =>
      match parseChildrenF fuel len labelSpan ts with
      | none => none
      | some (.error err) => some (.error err)
      | some (.ok (es, rest')) => some (.ok (.string t.span :: es, rest'))
    | .error => some (.error (.unknownToken "Error" labelSpan))

end

/-- `Parser::parse_sexpr` run with enough fuel for its token stream: the
call depth is bounded by twice the token count, so this fuel bound is
never exhausted. -/
def parseSExprTokens (len : Nat) (ts : List Token) : Option (Except ParseError (ParsedSExpr × List Token)) :=
  parseSExprF (2 * ts.length + 2) len ts

/-- `impl TryFrom<&str> for SExpr` at the token level
(`src/sexpr/parser.rs`): parse one S-expression from the front of the
token stream and discard whatever tokens remain. -/
def tryFromTokens (len : Nat) (ts : List Token) : Option (Except ParseError ParsedSExpr) :=
  match parseSExprTokens len ts with
  | none => none
  | some (.error e) => some (.error e)
  | some (.ok (e, _)) => some (.ok e)

namespace Resolved

/-- Modelled from the spec: the compound part key `PartId = (library name,
part name)` of the resolved model (the mutation engine is not among the
provided sources). -/
structure PartId where
  lib : String
  part : String
deriving DecidableEq, Repr

/-- Modelled from the spec: a resolved component pin with its number,
name, type and the name of the net it is bound to. -/
structure ComponentPin where
  num : String
  name : String
  typ : PinType
  net_name : String
deriving DecidableEq, Repr

/-- Modelled from the spec: a resolved `Component` of the model. -/
structure Component where
  ref_des : String
  value : String
  part_id : PartId
  properties : List (String × String)
  footprint : Option String
  pins : List ComponentPin
deriving DecidableEq, Repr

/-- Modelled from the spec: a resolved part pin with its number, name and
type. -/
structure PartPin where
  num : String
  name : String
  typ : PinType
deriving DecidableEq, Repr

/-- Modelled from the spec: a resolved `Part`, carrying the set of
reference designators of the components instantiating it. -/
structure Part where
  part_id : PartId
  description : String
  pins : List PartPin
  components : List String
deriving DecidableEq, Repr

/-- Modelled from the spec: a resolved net `Node`. -/
structure Node where
  ref_des : String
  pin_num : String
  function : Option String
  typ : PinType
deriving DecidableEq, Repr

/-- Modelled from the spec: a resolved `Net`. -/
structure Net where
  code : String
  name : String
  nodes : List Node
deriving DecidableEq, Repr

/-- Modelled from the spec: the resolved model, three ordered
collections. -/
structure NetList where
  components : List Component
  parts : List Part
  nets : List Net
deriving DecidableEq, Repr

/-- Modelled from the spec: `remove_component(ref_des)` of the mutation
engine, which is not among the provided sources.  If no component has the
given reference designator, no-op; otherwise (a) delete the component,
(b) delete every matching node from every net and prune nets left empty,
(c) remove the designator from the component set of the part identified
by the component's `part_id`, deleting the part if its set empties. -/
def NetList.removeComponent (m : NetList) (refDes : String) : NetList :=
  match m.components.find? (fun c => c.ref_des = refDes) with
  | none => m
  | some c =>
    let components := m.components.filter (fun c' => c'.ref_des ≠ refDes)
    let nets := (m.nets.map (fun n =>
      { n with nodes := n.nodes.filter (fun nd => nd.ref_des ≠ refDes) })).filter
      (fun n => ¬ n.nodes.isEmpty)
    let parts := m.parts.filterMap (fun p =>
      if p.part_id = c.part_id then
        let comps := p.components.filter (fun r => r ≠ refDes)
        if comps.isEmpty then none else some { p with components := comps }
      else some p)
    { components, parts, nets }

end Resolved

/-! Concrete trees and token streams used by the counterexamples and
witnesses below. -/

/-- A node with two children labeled `b`: the first has a nested first
child, the second has a string value. -/
def dupLabelTree : SExpr :=
  .node "a" [.node "b" [.node "c" []], .node "b" [.str "x"]]

/-- A `comp` node whose `footprint` child is present but has a nested
first child, with all required fields present. -/
def compNodeNestedFootprint : SExpr :=
  .node "comp" [.node "ref" [.str "R1"], .node "value" [.str "1k"],
    .node "footprint" [.node "nested" []],
    .node "libsource" [.node "lib" [.str "Device"], .node "part" [.str "R"]]]

/-- A `libpart` node with `lib` and `part` but no `description` and no
`pins` section. -/
def partNodeNoDescription : SExpr :=
  .node "libpart" [.node "lib" [.str "Lib"], .node "part" [.str "P"]]

/-- The token stream of a source such as `(a "` : a complete label
followed by a lex-error token (an unterminated quote). -/
def lexErrorTokens : List Token :=
  [{ kind := .lparen, span := (0, 1) }, { kind := .string, span := (1, 2) },
   { kind := .error, span := (3, 4) }]

/-- A small resolved model: one component `U1` of part `74xGxx/74AHC1G00`
with one pin on net `N1`, the part back-referencing `U1`, and the net
with the matching node. -/
def exampleResolvedModel : Resolved.NetList :=
  ⟨[⟨"U1", "74AHC1G00", ⟨"74xGxx", "74AHC1G00"⟩, [], none, [⟨"1", "A", .input, "N1"⟩]⟩],
   [⟨⟨"74xGxx", "74AHC1G00"⟩, "", [⟨"1", "A", .input⟩], ["U1"]⟩],
   [⟨"1", "N1", [⟨"U1", "1", none, .input⟩]⟩]⟩

/-- Dissection of a successful `Except` bind: the first action succeeded
and its result fed the continuation. -/
theorem exceptBind_ok {ε α β : Type} {x : Except ε α} {f : α → Except ε β} {b : β}
    (h : (x >>= f) = .ok b) : ∃ a, x = .ok a ∧ f a = .ok b := by
  cases x with
  | ok a => exact ⟨a, rfl, h⟩
  | error e => simp [Bind.bind, Except.bind] at h

/-- Reduction of an `Except` bind on a success value. -/
theorem exceptBind_ok_eq {ε α β : Type} (a : α) (f : α → Except ε β) :
    (Except.ok a >>= f) = f a := rfl

/-- Reduction of an `Except` bind on an error value. -/
theorem exceptBind_error_eq {ε α β : Type} (er : ε) (f : α → Except ε β) :
    ((Except.error er : Except ε α) >>= f) = .error er := rfl

/-- C1: the ten vocabulary strings map one-to-one to their pin-type tags,
any string ending in `no_connect` maps to the unconnected tag regardless
of prefix (the suffix rule takes precedence), and every other string
yields an unknown-pin-type error carrying the offending string. -/
theorem pinType_conversion_spec :
    (∀ s : String, strEndsWith s "no_connect" = true → pinTypeFromStr s = .ok .unconnected)
    ∧ (pinTypeFromStr "input" = .ok .input
       ∧ pinTypeFromStr "output" = .ok .output
       ∧ pinTypeFromStr "bidirectional" = .ok .bidirectional
       ∧ pinTypeFromStr "tri_state" = .ok .triState
       ∧ pinTypeFromStr "passive" = .ok .passive
       ∧ pinTypeFromStr "free" = .ok .free
       ∧ pinTypeFromStr "power_in" = .ok .powerInput
       ∧ pinTypeFromStr "power_out" = .ok .powerOutput
       ∧ pinTypeFromStr "open_collector" = .ok .openCollector
       ∧ pinTypeFromStr "open_emitter" = .ok .openEmitter)
    ∧ (∀ s : String, strEndsWith s "no_connect" = false →
        s ∉ ["input", "output", "bidirectional", "tri_state", "passive", "free",
             "power_in", "power_out", "open_collector", "open_emitter"] →
        pinTypeFromStr s = .error (.unknownPinType s)) := by
  refine ⟨?_, by decide, ?_⟩
  · intro s h
    simp [pinTypeFromStr, h]
  · intro s h hmem
    simp only [List.mem_cons, List.not_mem_nil, or_false, not_or] at hmem
    obtain ⟨h1, h2, h3, h4, h5, h6, h7, h8, h9, h10⟩ := hmem
    simp [pinTypeFromStr, h, h1, h2, h3, h4, h5, h6, h7, h8, h9, h10]

/-- Witness for C1 at concrete strings: a prefixed `no_connect` variant
and a string outside the vocabulary. -/
theorem pinType_conversion_spec_witness :
    pinTypeFromStr "version3_no_connect" = .ok .unconnected
    ∧ pinTypeFromStr "mystery" = .error (.unknownPinType "mystery") :=
  ⟨pinType_conversion_spec.1 "version3_no_connect" (by decide),
   pinType_conversion_spec.2.2 "mystery" (by decide) (by decide)⟩

/-- C10: on a string atom, `children` yields the empty sequence, and
`child` and `value` return a `MissingChild` error; the query operations
are total on every tree shape. -/
theorem query_ops_total_on_atoms :
    ∀ (s label : String),
      (SExpr.str s).childrenOf label = []
      ∧ (SExpr.str s).child label = .error (.missingChild label)
      ∧ (SExpr.str s).value label = .error (.missingChild label) := by
  intro s label
  exact ⟨rfl, rfl, rfl⟩

/-- Counterexample to C3: on a node whose first `b` child has a nested
first child and whose second `b` child has a string value, `value`
returns a `MissingValue` error instead of the later child's string. -/
theorem value_first_label_only_cex :
    SExpr.value dupLabelTree "b" = .error .missingValue
    ∧ SExpr.value dupLabelTree "b" ≠ .ok "x" := by
  exact ⟨by decide, by decide⟩

/-- Counterexample to C4: a part node lacking a `description` value does
not surface the query layer's error; extraction succeeds with the
description defaulted to the empty string. -/
theorem part_description_defaulted_cex :
    SExpr.value partNodeNoDescription "description" = .error (.missingChild "description")
    ∧ partFromSExpr partNodeNoDescription =
        .ok { part := "P", lib := "Lib", description := "", pins := [] } := by
  exact ⟨by decide, by decide⟩

/-- C5 (divergence): on the token stream of `(a "` the parser reports
`UnknownToken`, but the span it carries is that of the enclosing label
`a` (bytes 1 to 2), not the lex-error token's own span (bytes 3 to 4). -/
theorem unknown_token_span_is_label_span :
    parseSExprTokens 5 lexErrorTokens = some (.error (.unknownToken "Error" (1, 2)))
    ∧ ((1, 2) : Span) ≠ ((3, 4) : Span) := by
  exact ⟨rfl, by decide⟩

/-- C6 (divergence): the quoted-string pattern accepts the escapes for
quote, backslash, b, n, f, r, t, and its span is reported without the two
delimiting quotes, but the unicode alternative lacks the backslash: the
input holding backslash-u-A-B-C-D between quotes is rejected, while the
same content without the backslash is what the alternative accepts. -/
theorem quoted_unicode_escape_rejected :
    quotedStringToken "\"\\uABCD\"".data = false
    ∧ quotedStringToken "\"uABCD\"".data = true
    ∧ quotedStringToken "\"\\\"\"".data = true
    ∧ quotedStringToken "\"\\\\\"".data = true
    ∧ quotedStringToken "\"\\n\"".data = true
    ∧ quotedStringToken "\"\\f\"".data = true
    ∧ quotedStringToken "\"\\r\"".data = true
    ∧ quotedStringToken "\"\\t\"".data = true
    ∧ quotedStringToken "\"\\b\"".data = true
    ∧ tokenIterStep (.ok .quotedString, (0, 8)) = some { kind := .string, span := (1, 7) } := by
  decide

/-- C7: removing a reference designator carried by no component leaves
the resolved model structurally unchanged. -/
theorem remove_component_noop :
    ∀ (m : Resolved.NetList) (refDes : String),
      (∀ c ∈ m.components, c.ref_des ≠ refDes) →
      m.removeComponent refDes = m := by
  intro m refDes h
  unfold Resolved.NetList.removeComponent
  have hfind : m.components.find? (fun c => c.ref_des = refDes) = none := by
    rw [List.find?_eq_none]
    intro c hc
    simp [h c hc]
  rw [hfind]

/-- Witness for C7: removing the absent designator `U9` from the example
model leaves it unchanged. -/
theorem remove_component_noop_witness :
    (∀ c ∈ exampleResolvedModel.components, c.ref_des ≠ "U9")
    ∧ exampleResolvedModel.removeComponent "U9" = exampleResolvedModel :=
  ⟨by decide, remove_component_noop exampleResolvedModel "U9" (by decide)⟩

/-- C9: whenever the `footprint` lookup on a component node fails with any
error, a successful component extraction carries `footprint = none`. -/
theorem footprint_failure_maps_to_none :
    ∀ (e : SExpr) (err : ParseError), e.value "footprint" = .error err →
      ∀ c : Component, componentFromSExpr e = .ok c → c.footprint = none := by
  intro e err herr c hc
  unfold componentFromSExpr at hc
  obtain ⟨rv, h1, hc⟩ := exceptBind_ok hc
  obtain ⟨vv, h2, hc⟩ := exceptBind_ok hc
  obtain ⟨props, h3, hc⟩ := exceptBind_ok hc
  obtain ⟨ls, h4, hc⟩ := exceptBind_ok hc
  obtain ⟨lib, h5, hc⟩ := exceptBind_ok hc
  obtain ⟨part, h6, hc⟩ := exceptBind_ok hc
  simp only [herr, pure, Except.pure] at hc
  cases hc
  rfl

/-- Witness for C9: on the concrete component node whose `footprint`
child has a nested first child, the lookup fails with `MissingValue`, yet
extraction succeeds and its footprint is `none`. -/
theorem footprint_failure_maps_to_none_witness :
    SExpr.value compNodeNestedFootprint "footprint" = .error .missingValue
    ∧ componentFromSExpr compNodeNestedFootprint =
        .ok { ref_des := "R1", value := "1k", part := "R", lib := "Device",
              properties := [], footprint := none }
    ∧ ∀ c, componentFromSExpr compNodeNestedFootprint = .ok c → c.footprint = none :=
  ⟨by decide, by decide,
   footprint_failure_maps_to_none compNodeNestedFootprint .missingValue (by decide)⟩

/-- C2: on any labeled root, extraction fails with the dedicated
unexpected-root-label error when the label is not `export`; with the
label `export` and a `version` value other than `"E"` it fails with the
unknown-version error naming that value; and extraction succeeds only
when the label is `export` and the version value is `"E"`. -/
theorem netlist_root_and_version_gate :
    ∀ (l : String) (cs : List SExpr),
      (l ≠ "export" →
        netListFromSExpr (.node l cs) = some (.error (.unexpectedRootLabel l)))
      ∧ (∀ v, l = "export" → SExpr.value (.node l cs) "version" = .ok v → v ≠ "E" →
          netListFromSExpr (.node l cs) = some (.error (.unknownVersion v)))
      ∧ (∀ nl, netListFromSExpr (.node l cs) = some (.ok nl) →
          l = "export" ∧ SExpr.value (.node l cs) "version" = .ok "E") := by
  intro l cs
  refine ⟨?_, ?_, ?_⟩
  · intro h
    simp [netListFromSExpr, SExpr.labelOf, h]
  · intro v hl hv hne
    subst hl
    simp only [netListFromSExpr, SExpr.labelOf]
    rw [if_neg (by simp), hv]
    simp [hne]
  · intro nl h
    simp only [netListFromSExpr, SExpr.labelOf, Option.some.injEq] at h
    by_cases hl : l = "export"
    · subst hl
      rw [if_neg (by simp)] at h
      refine ⟨rfl, ?_⟩
      cases hv : SExpr.value (.node "export" cs) "version" with
      | error err => simp [hv] at h
      | ok v =>
        rw [hv] at h
        by_cases hv2 : v = "E"
        · rw [hv2]
        · simp [hv2] at h
    · rw [if_pos hl] at h
      cases h

/-- Witness for C2: a root labeled `foo` fails with the root-label error,
and an `export` root declaring version `D` fails with the unknown-version
error naming `D`. -/
theorem netlist_root_and_version_gate_witness :
    netListFromSExpr (.node "foo" []) = some (.error (.unexpectedRootLabel "foo"))
    ∧ netListFromSExpr (.node "export" [.node "version" [.str "D"]]) =
        some (.error (.unknownVersion "D")) :=
  ⟨(netlist_root_and_version_gate "foo" []).1 (by decide),
   (netlist_root_and_version_gate "export" [.node "version" [.str "D"]]).2.1
     "D" rfl (by decide) (by decide)⟩

/-- C3 (amended): `value(label)` examines only the first direct child
carrying `label`: when no direct child carries the label it returns a
`MissingChild` error, and when the first labeled child is found the
result is its leading string, or a `MissingValue` error when that child
is empty or has a nested first child — regardless of any later children
carrying the same label. -/
theorem value_examines_first_labeled_child :
    ∀ (l : String) (cs : List SExpr) (label : String),
      ((∀ c ∈ cs, c.isLabeled label = false) →
        SExpr.value (.node l cs) label = .error (.missingChild label))
      ∧ (∀ (pre suf grand : List SExpr),
          cs = pre ++ SExpr.node label grand :: suf →
          (∀ c ∈ pre, c.isLabeled label = false) →
          SExpr.value (.node l cs) label =
            (match grand.head? with
             | some (.str s) => .ok s
             | _ => .error .missingValue)) := by
  intro l cs label
  constructor
  · intro h
    have hf : cs.filter (fun c => c.isLabeled label) = [] := by
      rw [List.filter_eq_nil_iff]
      intro c hc
      simp [h c hc]
    simp [SExpr.value, SExpr.child, SExpr.childrenOf, hf]
  · intro pre suf grand hcs hpre
    subst hcs
    have hfpre : pre.filter (fun c => c.isLabeled label) = [] := by
      rw [List.filter_eq_nil_iff]
      intro c hc
      simp [hpre c hc]
    have hsplit : (pre ++ SExpr.node label grand :: suf).filter (fun c => c.isLabeled label)
        = SExpr.node label grand :: suf.filter (fun c => c.isLabeled label) := by
      rw [List.filter_append, hfpre, List.nil_append]
      simp [SExpr.isLabeled]
    simp only [SExpr.value, SExpr.child, SExpr.childrenOf, hsplit, List.head?_cons]
    cases grand with
    | nil => rfl
    | cons g gs => cases g <;> rfl

/-- Witness for C3's amended statement: with a string atom before the
first labeled child, `value` returns that first labeled child's string;
and on a node with no labeled child it returns `MissingChild`. -/
theorem value_examines_first_labeled_child_witness :
    SExpr.value (.node "a" [.str "noise", .node "b" [.str "x"]]) "b" = .ok "x"
    ∧ SExpr.value (.node "a" [.str "noise"]) "b" = .error (.missingChild "b") :=
  ⟨(value_examines_first_labeled_child "a" [.str "noise", .node "b" [.str "x"]] "b").2
      [.str "noise"] [] [.str "x"] rfl (by decide),
   (value_examines_first_labeled_child "a" [.str "noise"] "b").1 (by decide)⟩

/-- C4 (amended): raw schema extraction surfaces the query layer's error
unchanged for every missing required field of every record kind — a
pin's `num`, `name` and `type`; a property's `name` and `value`; a
node's `ref`, `pin` and `pintype`; a net's `code` and `name` and its
node list; a component's `ref`, `value`, properties, `libsource` and its
`lib` and `part`; a part's `lib`, `part` and pin list; and the top
level's `components`, `libparts` and `nets` sections — with exactly
these exceptions to requiredness: a component's `footprint` becomes
`none` on any lookup failure, a part's missing `pins` section yields the
empty pin list, and a part's `description` defaults to the empty string
on any lookup failure (a node's `pinfunction` is declared optional by
the data model and likewise becomes `none`).  Each record kind is
characterized completely: the error clauses follow the source's lookup
order, and the success clauses pin down the extracted record — so no
field other than the listed ones is ever defaulted. -/
theorem raw_extraction_required_and_optional_fields :
    ∀ (e : SExpr),
      ((∀ err, e.value "num" = .error err → pinFromSExpr e = .error err)
        ∧ (∀ n err, e.value "num" = .ok n → e.value "name" = .error err →
            pinFromSExpr e = .error err)
        ∧ (∀ n m err, e.value "num" = .ok n → e.value "name" = .ok m →
            e.value "type" = .error err → pinFromSExpr e = .error err)
        ∧ (∀ n m t, e.value "num" = .ok n → e.value "name" = .ok m →
            e.value "type" = .ok t → pinFromSExpr e = .ok ⟨n, m, t⟩))
      ∧ ((∀ err, e.value "name" = .error err → propertyFromSExpr e = .error err)
        ∧ (∀ n err, e.value "name" = .ok n → e.value "value" = .error err →
            propertyFromSExpr e = .error err)
        ∧ (∀ n v, e.value "name" = .ok n → e.value "value" = .ok v →
            propertyFromSExpr e = .ok (n, v)))
      ∧ ((∀ err, e.value "ref" = .error err → nodeFromSExpr e = .error err)
        ∧ (∀ r err, e.value "ref" = .ok r → e.value "pin" = .error err →
            nodeFromSExpr e = .error err)
        ∧ (∀ r p err, e.value "ref" = .ok r → e.value "pin" = .ok p →
            e.value "pintype" = .error err → nodeFromSExpr e = .error err)
        ∧ (∀ r p t, e.value "ref" = .ok r → e.value "pin" = .ok p →
            e.value "pintype" = .ok t →
            nodeFromSExpr e = .ok ⟨r, p, (e.value "pinfunction").toOption, t⟩))
      ∧ ((∀ err, e.value "code" = .error err → netFromSExpr e = .error err)
        ∧ (∀ c err, e.value "code" = .ok c → e.value "name" = .error err →
            netFromSExpr e = .error err)
        ∧ (∀ c m err, e.value "code" = .ok c → e.value "name" = .ok m →
            (e.childrenOf "node").mapM nodeFromSExpr = .error err →
            netFromSExpr e = .error err)
        ∧ (∀ c m ns, e.value "code" = .ok c → e.value "name" = .ok m →
            (e.childrenOf "node").mapM nodeFromSExpr = .ok ns →
            netFromSExpr e = .ok ⟨c, m, ns⟩))
      ∧ ((∀ err, e.value "ref" = .error err → componentFromSExpr e = .error err)
        ∧ (∀ r err, e.value "ref" = .ok r → e.value "value" = .error err →
            componentFromSExpr e = .error err)
        ∧ (∀ r v err, e.value "ref" = .ok r → e.value "value" = .ok v →
            (e.childrenOf "property").mapM propertyFromSExpr = .error err →
            componentFromSExpr e = .error err)
        ∧ (∀ r v props err, e.value "ref" = .ok r → e.value "value" = .ok v →
            (e.childrenOf "property").mapM propertyFromSExpr = .ok props →
            e.child "libsource" = .error err → componentFromSExpr e = .error err)
        ∧ (∀ r v props ls err, e.value "ref" = .ok r → e.value "value" = .ok v →
            (e.childrenOf "property").mapM propertyFromSExpr = .ok props →
            e.child "libsource" = .ok ls → ls.value "lib" = .error err →
            componentFromSExpr e = .error err)
        ∧ (∀ r v props ls lb err, e.value "ref" = .ok r → e.value "value" = .ok v →
            (e.childrenOf "property").mapM propertyFromSExpr = .ok props →
            e.child "libsource" = .ok ls → ls.value "lib" = .ok lb →
            ls.value "part" = .error err → componentFromSExpr e = .error err)
        ∧ (∀ r v props ls lb pt, e.value "ref" = .ok r → e.value "value" = .ok v →
            (e.childrenOf "property").mapM propertyFromSExpr = .ok props →
            e.child "libsource" = .ok ls → ls.value "lib" = .ok lb →
            ls.value "part" = .ok pt →
            componentFromSExpr e = .ok ⟨r, v, pt, lb, props, (e.value "footprint").toOption⟩))
      ∧ ((∀ err, e.value "lib" = .error err → partFromSExpr e = .error err)
        ∧ (∀ lb err, e.value "lib" = .ok lb → e.value "part" = .error err →
            partFromSExpr e = .error err)
        ∧ (∀ lb pt pnode err, e.value "lib" = .ok lb → e.value "part" = .ok pt →
            e.child "pins" = .ok pnode →
            (pnode.childrenOf "pin").mapM pinFromSExpr = .error err →
            partFromSExpr e = .error err)
        ∧ (∀ lb pt pnode ps, e.value "lib" = .ok lb → e.value "part" = .ok pt →
            e.child "pins" = .ok pnode →
            (pnode.childrenOf "pin").mapM pinFromSExpr = .ok ps →
            partFromSExpr e = .ok ⟨pt, lb, ((e.value "description").toOption).getD "", ps⟩)
        ∧ (∀ lb pt err, e.value "lib" = .ok lb → e.value "part" = .ok pt →
            e.child "pins" = .error err →
            partFromSExpr e = .ok ⟨pt, lb, ((e.value "description").toOption).getD "", []⟩))
      ∧ ((∀ err, e.labelOf = some "export" → e.value "version" = .ok "E" →
            e.child "components" = .error err → netListFromSExpr e = some (.error err))
        ∧ (∀ ce err, e.labelOf = some "export" → e.value "version" = .ok "E" →
            e.child "components" = .ok ce →
            (ce.childrenOf "comp").mapM componentFromSExpr = .error err →
            netListFromSExpr e = some (.error err))
        ∧ (∀ ce comps err, e.labelOf = some "export" → e.value "version" = .ok "E" →
            e.child "components" = .ok ce →
            (ce.childrenOf "comp").mapM componentFromSExpr = .ok comps →
            e.child "libparts" = .error err → netListFromSExpr e = some (.error err))
        ∧ (∀ ce comps le err, e.labelOf = some "export" → e.value "version" = .ok "E" →
            e.child "components" = .ok ce →
            (ce.childrenOf "comp").mapM componentFromSExpr = .ok comps →
            e.child "libparts" = .ok le →
            (le.childrenOf "libpart").mapM partFromSExpr = .error err →
            netListFromSExpr e = some (.error err))
        ∧ (∀ ce comps le parts err, e.labelOf = some "export" → e.value "version" = .ok "E" →
            e.child "components" = .ok ce →
            (ce.childrenOf "comp").mapM componentFromSExpr = .ok comps →
            e.child "libparts" = .ok le →
            (le.childrenOf "libpart").mapM partFromSExpr = .ok parts →
            e.child "nets" = .error err → netListFromSExpr e = some (.error err))
        ∧ (∀ ce comps le parts ne err, e.labelOf = some "export" → e.value "version" = .ok "E" →
            e.child "components" = .ok ce →
            (ce.childrenOf "comp").mapM componentFromSExpr = .ok comps →
            e.child "libparts" = .ok le →
            (le.childrenOf "libpart").mapM partFromSExpr = .ok parts →
            e.child "nets" = .ok ne →
            (ne.childrenOf "net").mapM netFromSExpr = .error err →
            netListFromSExpr e = some (.error err))
        ∧ (∀ ce comps le parts ne nets, e.labelOf = some "export" → e.value "version" = .ok "E" →
            e.child "components" = .ok ce →
            (ce.childrenOf "comp").mapM componentFromSExpr = .ok comps →
            e.child "libparts" = .ok le →
            (le.childrenOf "libpart").mapM partFromSExpr = .ok parts →
            e.child "nets" = .ok ne →
            (ne.childrenOf "net").mapM netFromSExpr = .ok nets →
            netListFromSExpr e = some (.ok ⟨comps, parts, nets⟩))) := by
  intro e
  refine ⟨⟨?_, ?_, ?_, ?_⟩, ⟨?_, ?_, ?_⟩, ⟨?_, ?_, ?_, ?_⟩, ⟨?_, ?_, ?_, ?_⟩,
    ⟨?_, ?_, ?_, ?_, ?_, ?_, ?_⟩, ⟨?_, ?_, ?_, ?_, ?_⟩, ⟨?_, ?_, ?_, ?_, ?_, ?_, ?_⟩⟩
  · intro err h1
    simp only [pinFromSExpr, exceptBind_ok_eq, exceptBind_error_eq, h1]
  · intro n err h1 h2
    simp only [pinFromSExpr, exceptBind_ok_eq, exceptBind_error_eq, h1, h2]
  · intro n m err h1 h2 h3
    simp only [pinFromSExpr, exceptBind_ok_eq, exceptBind_error_eq, h1, h2, h3]
  · intro n m t h1 h2 h3
    simp only [pinFromSExpr, exceptBind_ok_eq, exceptBind_error_eq, h1, h2, h3]
    rfl
  · intro err h1
    simp only [propertyFromSExpr, exceptBind_ok_eq, exceptBind_error_eq, h1]
  · intro n err h1 h2
    simp only [propertyFromSExpr, exceptBind_ok_eq, exceptBind_error_eq, h1, h2]
  · intro n v h1 h2
    simp only [propertyFromSExpr, exceptBind_ok_eq, exceptBind_error_eq, h1, h2]
    rfl
  · intro err h1
    simp only [nodeFromSExpr, exceptBind_ok_eq, exceptBind_error_eq, h1]
  · intro r err h1 h2
    simp only [nodeFromSExpr, exceptBind_ok_eq, exceptBind_error_eq, h1, h2]
  · intro r p err h1 h2 h3
    simp only [nodeFromSExpr, exceptBind_ok_eq, exceptBind_error_eq, h1, h2, h3]
  · intro r p t h1 h2 h3
    simp only [nodeFromSExpr, exceptBind_ok_eq, exceptBind_error_eq, h1, h2, h3]
    rfl
  · intro err h1
    simp only [netFromSExpr, exceptBind_ok_eq, exceptBind_error_eq, h1]
  · intro c err h1 h2
    simp only [netFromSExpr, exceptBind_ok_eq, exceptBind_error_eq, h1, h2]
  · intro c m err h1 h2 h3
    simp only [netFromSExpr, exceptBind_ok_eq, exceptBind_error_eq, h1, h2, h3]
  · intro c m ns h1 h2 h3
    simp only [netFromSExpr, exceptBind_ok_eq, exceptBind_error_eq, h1, h2, h3]
    rfl
  · intro err h1
    simp only [componentFromSExpr, exceptBind_ok_eq, exceptBind_error_eq, h1]
  · intro r err h1 h2
    simp only [componentFromSExpr, exceptBind_ok_eq, exceptBind_error_eq, h1, h2]
  · intro r v err h1 h2 h3
    simp only [componentFromSExpr, exceptBind_ok_eq, exceptBind_error_eq, h1, h2, h3]
  · intro r v props err h1 h2 h3 h4
    simp only [componentFromSExpr, exceptBind_ok_eq, exceptBind_error_eq, h1, h2, h3, h4]
  · intro r v props ls err h1 h2 h3 h4 h5
    simp only [componentFromSExpr, exceptBind_ok_eq, exceptBind_error_eq, h1, h2, h3, h4, h5]
  · intro r v props ls lb err h1 h2 h3 h4 h5 h6
    simp only [componentFromSExpr, exceptBind_ok_eq, exceptBind_error_eq, h1, h2, h3, h4, h5, h6]
  · intro r v props ls lb pt h1 h2 h3 h4 h5 h6
    simp only [componentFromSExpr, exceptBind_ok_eq, exceptBind_error_eq, h1, h2, h3, h4, h5, h6]
    rfl
  · intro err h1
    simp only [partFromSExpr, h1]
  · intro lb err h1 h2
    simp only [partFromSExpr, h1, h2]
  · intro lb pt pnode err h1 h2 h3 h4
    simp only [partFromSExpr, h1, h2, h3, h4]
  · intro lb pt pnode ps h1 h2 h3 h4
    simp only [partFromSExpr, h1, h2, h3, h4]
  · intro lb pt err h1 h2 h3
    simp only [partFromSExpr, h1, h2, h3]
  · intro err h1 h2 h3
    simp only [netListFromSExpr, exceptBind_ok_eq, exceptBind_error_eq, h1, h2, h3]
    rfl
  · intro ce err h1 h2 h3 h4
    simp only [netListFromSExpr, exceptBind_ok_eq, exceptBind_error_eq, h1, h2, h3, h4]
    rfl
  · intro ce comps err h1 h2 h3 h4 h5
    simp only [netListFromSExpr, exceptBind_ok_eq, exceptBind_error_eq, h1, h2, h3, h4, h5]
    rfl
  · intro ce comps le err h1 h2 h3 h4 h5 h6
    simp only [netListFromSExpr, exceptBind_ok_eq, exceptBind_error_eq, h1, h2, h3, h4, h5, h6]
    rfl
  · intro ce comps le parts err h1 h2 h3 h4 h5 h6 h7
    simp only [netListFromSExpr, exceptBind_ok_eq, exceptBind_error_eq, h1, h2, h3, h4, h5, h6,
      h7]
    rfl
  · intro ce comps le parts ne err h1 h2 h3 h4 h5 h6 h7 h8
    simp only [netListFromSExpr, exceptBind_ok_eq, exceptBind_error_eq, h1, h2, h3, h4, h5, h6,
      h7, h8]
    rfl
  · intro ce comps le parts ne nets h1 h2 h3 h4 h5 h6 h7 h8
    simp only [netListFromSExpr, exceptBind_ok_eq, exceptBind_error_eq, h1, h2, h3, h4, h5, h6,
      h7, h8]
    rfl

/-- Witness for C4's amended statement: a bare `libpart` node surfaces
the `MissingChild` error for `lib` unchanged, a node lacking
`description` and `pins` extracts to a part with the empty description
and the empty pin list, and a component node with a failing `footprint`
lookup extracts with `footprint = none`. -/
theorem raw_extraction_required_and_optional_fields_witness :
    partFromSExpr (SExpr.node "libpart" []) = .error (.missingChild "lib")
    ∧ partFromSExpr partNodeNoDescription = .ok (Part.mk "P" "Lib" "" [])
    ∧ componentFromSExpr compNodeNestedFootprint =
        .ok (Component.mk "R1" "1k" "R" "Device" [] none) :=
  ⟨(raw_extraction_required_and_optional_fields (SExpr.node "libpart" [])).2.2.2.2.2.1.1
      (.missingChild "lib") (by decide),
   (raw_extraction_required_and_optional_fields partNodeNoDescription).2.2.2.2.2.1.2.2.2.2
      "Lib" "P" (.missingChild "pins") (by decide) (by decide) rfl,
   (raw_extraction_required_and_optional_fields compNodeNestedFootprint).2.2.2.2.1.2.2.2.2.2.2
      "R1" "1k" [] (SExpr.node "libsource" [.node "lib" [.str "Device"], .node "part" [.str "R"]])
      "Device" "R" (by decide) (by decide) rfl rfl (by decide) (by decide)⟩

/-- Fuel monotonicity and locality of the token-level parser: a run that
succeeds consuming a prefix of the token stream succeeds identically with
any larger fuel and with any tokens appended after the stream, the
appended tokens ending up untouched in the remainder. -/
theorem parseF_extend :
    ∀ fuel : Nat,
      (∀ fuel' len ts e rest, fuel ≤ fuel' →
        parseSExprF fuel len ts = some (.ok (e, rest)) →
        ∀ extra, parseSExprF fuel' len (ts ++ extra) = some (.ok (e, rest ++ extra)))
      ∧ (∀ fuel' len ls ts es rest, fuel ≤ fuel' →
        parseChildrenF fuel len ls ts = some (.ok (es, rest)) →
        ∀ extra, parseChildrenF fuel' len ls (ts ++ extra) = some (.ok (es, rest ++ extra))) := by
  intro fuel
  induction fuel with
  | zero =>
    constructor
    · intro fuel' len ts e rest _ h
      simp [parseSExprF] at h
    · intro fuel' len ls ts es rest _ h
      simp [parseChildrenF] at h
  | succ fuel ih =>
    obtain ⟨ihS, ihC⟩ := ih
    constructor
    · intro fuel' len ts e rest hle h extra
      obtain ⟨f', rfl⟩ : ∃ f', fuel' = f' + 1 := ⟨fuel' - 1, by omega⟩
      have hf : fuel ≤ f' := by omega
      cases ts with
      | nil => simp [parseSExprF] at h
      | cons t ts1 =>
        rw [List.cons_append]
        obtain ⟨tk, tsp⟩ := t
        cases tk with
        | lparen =>
          cases ts1 with
          | nil => simp [parseSExprF] at h
          | cons lt ts2 =>
            rw [List.cons_append]
            obtain ⟨ltk, ltsp⟩ := lt
            cases ltk with
            | string =>
              simp only [parseSExprF] at h ⊢
              cases hpc : parseChildrenF fuel len ltsp ts2 with
              | none => simp [hpc] at h
              | some r =>
                cases r with
                | error err => simp [hpc] at h
                | ok pr =>
                  obtain ⟨cs, rest1⟩ := pr
                  simp only [hpc, Option.some.injEq, Except.ok.injEq, Prod.mk.injEq] at h
                  obtain ⟨he, hrest⟩ := h
                  subst he
                  subst hrest
                  simp [ihC f' len ltsp ts2 cs rest1 hf hpc extra]
            | lparen => simp [parseSExprF] at h
            | rparen => simp [parseSExprF] at h
            | error => simp [parseSExprF] at h
        | rparen => simp [parseSExprF] at h
        | string => simp [parseSExprF] at h
        | error => simp [parseSExprF] at h
    · intro fuel' len ls ts es rest hle h extra
      obtain ⟨f', rfl⟩ : ∃ f', fuel' = f' + 1 := ⟨fuel' - 1, by omega⟩
      have hf : fuel ≤ f' := by omega
      cases ts with
      | nil => simp [parseChildrenF] at h
      | cons t ts1 =>
        rw [List.cons_append]
        obtain ⟨tk, tsp⟩ := t
        cases tk with
        | rparen =>
          simp only [parseChildrenF] at h ⊢
          simp only [Option.some.injEq, Except.ok.injEq, Prod.mk.injEq] at h
          obtain ⟨he, hrest⟩ := h
          subst he
          subst hrest
          rfl
        | lparen =>
          simp only [parseChildrenF] at h ⊢
          cases hps : parseSExprF fuel len (Token.mk .lparen tsp :: ts1) with
          | none => simp [hps] at h
          | some r =>
            cases r with
            | error err => simp [hps] at h
            | ok pr =>
              obtain ⟨e1, rest1⟩ := pr
              have hext := ihS f' len (Token.mk .lparen tsp :: ts1) e1 rest1 hf hps extra
              rw [List.cons_append] at hext
              rw [hext]
              simp only [hps] at h
              cases hpc : parseChildrenF fuel len ls rest1 with
              | none => simp [hpc] at h
              | some r2 =>
                cases r2 with
                | error err => simp [hpc] at h
                | ok pr2 =>
                  obtain ⟨es1, rest2⟩ := pr2
                  simp only [hpc, Option.some.injEq, Except.ok.injEq, Prod.mk.injEq] at h
                  obtain ⟨he, hrest⟩ := h
                  subst he
                  subst hrest
                  simp [ihC f' len ls rest1 es1 rest2 hf hpc extra]
        | string =>
          simp only [parseChildrenF] at h ⊢
          cases hpc : parseChildrenF fuel len ls ts1 with
          | none => simp [hpc] at h
          | some r =>
            cases r with
            | error err => simp [hpc] at h
            | ok pr =>
              obtain ⟨es1, rest2⟩ := pr
              simp only [hpc, Option.some.injEq, Except.ok.injEq, Prod.mk.injEq] at h
              obtain ⟨he, hrest⟩ := h
              subst he
              subst hrest
              simp [ihC f' len ls ts1 es1 rest2 hf hpc extra]
        | error => simp [parseChildrenF] at h

/-- C8: parsing consumes only the first complete top-level S-expression:
when the parser succeeds consuming a token stream exactly, the
string-to-tree conversion run on that stream followed by any trailing
tokens whatsoever — further tokens, another S-expression, or lex-error
garbage — still succeeds with the same tree, ignoring the trailing part. -/
theorem parser_ignores_trailing_tokens :
    ∀ (len : Nat) (ts : List Token) (e : ParsedSExpr),
      parseSExprTokens len ts = some (.ok (e, [])) →
      ∀ extra : List Token, tryFromTokens len (ts ++ extra) = some (.ok e) := by
  intro len ts e h extra
  unfold parseSExprTokens at h
  unfold tryFromTokens parseSExprTokens
  have hlen : (ts ++ extra).length = ts.length + extra.length := List.length_append ts extra
  have hb : 2 * ts.length + 2 ≤ 2 * (ts ++ extra).length + 2 := by omega
  have hext := (parseF_extend (2 * ts.length + 2)).1 (2 * (ts ++ extra).length + 2)
    len ts e [] hb h extra
  rw [List.nil_append] at hext
  rw [hext]

/-- Witness for C8: the tokens of `(a)` followed by a lex-error token and
a stray open paren still parse to the tree of `(a)`. -/
theorem parser_ignores_trailing_tokens_witness :
    tryFromTokens 3
      ([Token.mk .lparen (0, 1), Token.mk .string (1, 2), Token.mk .rparen (2, 3)]
        ++ [Token.mk .error (4, 5), Token.mk .lparen (5, 6)]) =
      some (.ok (.sexpr (1, 2) [])) :=
  parser_ignores_trailing_tokens 3
    [Token.mk .lparen (0, 1), Token.mk .string (1, 2), Token.mk .rparen (2, 3)]
    (.sexpr (1, 2) []) rfl
    [Token.mk .error (4, 5), Token.mk .lparen (5, 6)]

end KicadNetList
